import Mathlib

/-!
Verification of the batch PDF export / SharePoint upload pipeline
(`src/generate_powerbi_pdfs.py`, `src/generate_sharepoint_links.py`,
`src/upload_to_sharepoint.py`).

The remote HTTP world is abstracted into explicit environments: each
remote call site is a field giving, per call, either the response
(status code plus the body fields the code reads) or `none`, which
models the library call itself raising an exception.

Notes on fidelity:
* `export_report_to_pdf` in the source omits `parameter_value` from its
  parameter list although its body (line 40) and every call site supply it.
  Two embeddings are therefore given: `exportCore` and its wrapper
  `export_report_to_pdf` model the body with `parameter_value` bound — the
  reading every call site and the rest of the module intend — while
  `export_report_to_pdf_as_defined` models the `def` exactly as written,
  where the unbound name raises `NameError` into the handler at line 94 on
  every invocation, before any remote call is made.
* Thread-pool fan-out with `as_completed` yields results in completion
  order; the claims settled here are about multisets/sets of outcomes,
  which are invariant under that order, so passes are modelled in
  submission order.
* Loops are modelled by structural recursion on the remaining loop
  budget (`max_retries - retry_count`), exactly the quantity that
  bounds each source loop.
-/

/-- Body of one poll (`GET .../exports/{id}`) response: HTTP status code and
the optional `"status"` field of the JSON body (`none` = field absent). -/
structure PollResp where
  code : Nat
  status : Option String
deriving DecidableEq

/-- Body of the export submission (`POST .../ExportTo`) response: HTTP status
code and the `"id"` field of the JSON body (`none` = absent/null; `some ""` is
also falsy for the source's `if not export_id` test). -/
structure SubmitResp where
  code : Nat
  id : Option String
deriving DecidableEq

/-- Remote environment seen by one `export_report_to_pdf` call.  A `none`
response models the underlying `requests` call raising. -/
structure ExportEnv where
  submit : Option SubmitResp
  poll : Nat → Option PollResp
  fetch : Option (Nat × List Nat)

/-- Result of the body of `export_report_to_pdf` before the enclosing
`try/except`: a downloaded artifact, a normal failure `return None`, or an
exception reaching the outer handler. -/
inductive ExpResult where
  | ok (bytes : List Nat)
  | failed
  | raised
deriving DecidableEq

/-- Lines 74-84 of `generate_powerbi_pdfs.py`: after a `Succeeded` status the
client fetches `.../file`; HTTP 200 yields the bytes, anything else is the
failure sentinel, a raising GET is an exception. -/
def fetchResult (env : ExportEnv) : ExpResult :=
  match env.fetch with
  | none => ExpResult.raised
  | some (c, b) => if c = 200 then ExpResult.ok b else ExpResult.failed

/-- Lines 60-93: the polling loop `while retry_count < max_retries`.
`fuel` is the remaining budget `max_retries - retry_count`; `i` is the index
of the next poll call.  Returns the result together with the number of
poll-status GET calls issued.  `fuel = 0` is the loop exit at line 92
(`return None` after exhausting the budget). -/
def pollLoop (env : ExportEnv) : Nat → Nat → ExpResult × Nat
  | 0, _ => (ExpResult.failed, 0)
  | fuel + 1, i =>
    match env.poll i with
    | none => (ExpResult.raised, 1)
    | some r =>
      if ¬(r.code = 200 ∨ r.code = 202) then (ExpResult.failed, 1)
      else
        let status := r.status.getD "Running"
        if status = "Succeeded" then (fetchResult env, 1)
        else if status = "Running" ∨ status = "NotStarted" then
          let p := pollLoop env fuel (i + 1)
          (p.1, p.2 + 1)
        else (ExpResult.failed, 1)

/-- Lines 28-93: the body of `export_report_to_pdf` inside the `try` —
submission, falsy-id check, then the polling loop — read with
`parameter_value` bound, as every call site invokes it.  The `def` as
literally written leaves that name unbound and never gets past line 40; that
reading is `export_report_to_pdf_as_defined` below. -/
def exportCore (env : ExportEnv) (maxRetries : Nat) : ExpResult × Nat :=
  match env.submit with
  | none => (ExpResult.raised, 0)
  | some s =>
    if s.code ≠ 200 then (ExpResult.failed, 0)
    else
      match s.id with
      | none => (ExpResult.failed, 0)
      | some i => if i = "" then (ExpResult.failed, 0) else pollLoop env maxRetries 0

/-- Lines 27-96: `export_report_to_pdf` (call-site reading, see `exportCore`)
with its outer `try/except` (line 94) that maps any exception to the sentinel
`None`.  Returns the optional artifact and the number of poll calls issued. -/
def export_report_to_pdf (env : ExportEnv) (maxRetries : Nat) : Option (List Nat) × Nat :=
  let r := exportCore env maxRetries
  (match r.1 with
   | ExpResult.ok b => some b
   | ExpResult.failed => none
   | ExpResult.raised => none, r.2)

/-- Lines 27-96 of `generate_powerbi_pdfs.py`, the function exactly as
defined: building `export_body` at line 40 reads the name `parameter_value`,
which is neither a parameter of the `def` at line 27 nor defined anywhere in
the module, so every invocation raises `NameError` inside the function-wide
`try` before the submission POST is issued; the handler at line 94 returns
`None`.  Hence the result is the sentinel with zero poll calls, for every
remote environment and every poll budget. -/
def export_report_to_pdf_as_defined (_ : ExportEnv) (_ : Nat) :
    Option (List Nat) × Nat :=
  (none, 0)

/-- Outcome of one worker call in `generate_pdf_batch`: an artifact, a `None`
result, or `future.result()` raising.  (In the source as written every worker
raises `TypeError` — the submission at lines 109-118 passes seven positional
arguments to the six-parameter `export_report_to_pdf` — so keeping the worker
abstract is generous to the code.) -/
inductive WOutcome where
  | ok (bytes : List Nat)
  | fail
  | exc
deriving DecidableEq

/-- Lines 121-133 (and the analogous 168-180): drain one pass of workers,
adding artifacts to the success mapping and appending every `None`-returning
or raising item to the failed list. -/
def runPass (w : String → Nat → WOutcome) (passIdx : Nat) :
    List String → List (String × List Nat) × List String →
    List (String × List Nat) × List String
  | [], acc => acc
  | v :: rest, acc =>
    match w v passIdx with
    | WOutcome.ok b => runPass w passIdx rest (acc.1 ++ [(v, b)], acc.2)
    | WOutcome.fail => runPass w passIdx rest (acc.1, acc.2 ++ [v])
    | WOutcome.exc => runPass w passIdx rest (acc.1, acc.2 ++ [v])

/-- Line 148: `retry_batch_size = min(1, batch_size // 2)`. -/
def retry_batch_size (batchSize : Nat) : Nat := min 1 (batchSize / 2)

/-- The two uncaught exceptions in `generate_pdf_batch`:
`ThreadPoolExecutor(max_retries=...)` at line 150 (`TypeError`: unexpected
keyword argument) and `len(pdf)` at line 185 (`NameError`: `pdf` undefined). -/
inductive PyErr where
  | typeErrorThreadPool
  | nameErrorPdf
deriving DecidableEq

/-- Lines 98-196: `generate_pdf_batch`.  The first pass (lines 105-133) runs
to completion; the retry loop `while failed_items and retry_attempt <=
max_retries` (line 137) enters its body iff items failed and `max_retries ≥ 1`,
and its first iteration raises `TypeError` at line 150 before submitting any
retry work; if the loop is never entered, control reaches line 185 which
raises `NameError` on the undefined name `pdf`.  The function body contains no
`return` statement. -/
def generate_pdf_batch (w : String → Nat → WOutcome) (values : List String)
    (batchSize maxRetries : Nat) :
    Except PyErr (List (String × List Nat) × List String) :=
  let first := runPass w 0 values ([], [])
  let _ := retry_batch_size batchSize
  if first.2 ≠ [] ∧ 1 ≤ maxRetries then Except.error PyErr.typeErrorThreadPool
  else Except.error PyErr.nameErrorPdf

/-- Remote environment for `generate_single_employee_link`
(`generate_sharepoint_links.py`): HTTP status code of the file-check GET and
of the createLink POST, indexed by the `retry_count` of the call performing
them. -/
structure LinkEnv where
  fileCode : Nat → Nat
  linkCode : Nat → Nat

/-- Lines 11-120 of `generate_sharepoint_links.py`, control flow of
`generate_single_employee_link`: a 429 on either remote call sleeps
`2 ** retry_count` and recurses with `retry_count + 1` while
`retry_count < max_retries`, otherwise gives up.  Returns the success flag of
the second tuple component together with the list of sleep durations, in
order.  `fuel` bounds the recursion structurally; it is sound as long as
`fuel ≥ max_retries + 1 - retry_count`, which `generate_single_employee_link`
below guarantees. -/
def genLinkGo (env : LinkEnv) (maxRetries : Nat) : Nat → Nat → Bool × List Nat
  | 0, _ => (false, [])
  | fuel + 1, retryCount =>
    if env.fileCode retryCount = 429 then
      if retryCount < maxRetries then
        let p := genLinkGo env maxRetries fuel (retryCount + 1)
        (p.1, 2 ^ retryCount :: p.2)
      else (false, [])
    else if env.fileCode retryCount ≠ 200 then (false, [])
    else if env.linkCode retryCount = 429 then
      if retryCount < maxRetries then
        let p := genLinkGo env maxRetries fuel (retryCount + 1)
        (p.1, 2 ^ retryCount :: p.2)
      else (false, [])
    else if env.linkCode retryCount = 200 ∨ env.linkCode retryCount = 201 then (true, [])
    else (false, [])

/-- `generate_single_employee_link` entered at its default `retry_count = 0`. -/
def generate_single_employee_link (env : LinkEnv) (maxRetries : Nat) : Bool × List Nat :=
  genLinkGo env maxRetries (maxRetries + 1) 0

/-- Lines 199-233 of `generate_sharepoint_links.py`: the attempt loop of
`upload_csv_to_sharepoint`, `for attempt in range(max_retries)`.  `putCode`
gives the HTTP status of the PUT on each attempt.  2xx returns success; 424
(the code's throttle signal) and any other failure sleep `2 ** attempt` and
move to the next attempt while `attempt < max_retries - 1`, else return
failure.  `fuel` is the number of remaining loop iterations
`max_retries - attempt`; `fuel = 0` is the fall-through `return False` at
line 233. -/
def uploadGo (putCode : Nat → Nat) (maxRetries : Nat) : Nat → Nat → Bool × List Nat
  | 0, _ => (false, [])
  | fuel + 1, attempt =>
    let c := putCode attempt
    if c = 200 ∨ c = 201 then (true, [])
    else if c = 424 then
      if attempt < maxRetries - 1 then
        let p := uploadGo putCode maxRetries fuel (attempt + 1)
        (p.1, 2 ^ attempt :: p.2)
      else (false, [])
    else
      if attempt < maxRetries - 1 then
        let p := uploadGo putCode maxRetries fuel (attempt + 1)
        (p.1, 2 ^ attempt :: p.2)
      else (false, [])

/-- `upload_csv_to_sharepoint`: success flag and sleep trace. -/
def upload_csv_to_sharepoint (putCode : Nat → Nat) (maxRetries : Nat) : Bool × List Nat :=
  uploadGo putCode maxRetries maxRetries 0

/-- Outcome of one `upload_pdf_stream_to_sharepoint` worker call in
`upload_pdfs_batch`: `True`, `False`, or `future.result()` raising. -/
inductive UOutcome where
  | ok
  | fail
  | exc
deriving DecidableEq

/-- Lines 263-272 of `upload_to_sharepoint.py`: drain the upload futures,
appending each identifier to `successful` on `True` and to `failed` on
`False` or on an exception. -/
def uploadPass (u : String → UOutcome) :
    List String → List String × List String → List String × List String
  | [], acc => acc
  | v :: rest, acc =>
    match u v with
    | UOutcome.ok => uploadPass u rest (acc.1 ++ [v], acc.2)
    | UOutcome.fail => uploadPass u rest (acc.1, acc.2 ++ [v])
    | UOutcome.exc => uploadPass u rest (acc.1, acc.2 ++ [v])

/-- Lines 226-276 of `upload_to_sharepoint.py`: `upload_pdfs_batch` submits
every key of `pdf_dict` once (keys of a Python dict, hence no duplicates in
intended use), collects the single pass, and returns
`(successful, failed)` — there is no batch-level retry loop. -/
def upload_pdfs_batch (u : String → UOutcome) (ids : List String) :
    List String × List String :=
  uploadPass u ids ([], [])

/-- An export whose poll status is always `"Running"`: submission accepted,
job id present, every poll HTTP 200 with body status `"Running"`. -/
def envAlwaysRunning : ExportEnv :=
  { submit := some { code := 200, id := some "e1" }
    poll := fun _ => some { code := 200, status := some "Running" }
    fetch := some (200, []) }

/-- C3: the claim's scenario evaluated on the code as defined.  The export
function never consults the always-`Running` remote at all — it returns the
sentinel with zero polls on every invocation — and the batch run over one
such item (whose worker raises, as the real 7-argument submission to the
6-parameter function does) records it failed in the first pass and then
aborts with `TypeError` while constructing the retry worker pool (line 150):
the item is attempted in exactly one pass, not the claimed
`max_retries + 1 = 4`, and the final failed set is never reported. -/
theorem always_running_item_single_pass_abort :
    export_report_to_pdf_as_defined envAlwaysRunning 30 = (none, 0) ∧
      generate_pdf_batch (fun _ _ => WOutcome.exc) ["A"] 20 3 =
        Except.error PyErr.typeErrorThreadPool :=
  ⟨rfl, rfl⟩

/-- C1: `generate_pdf_batch` never reaches a post-final-pass state at all —
for every worker behavior and every input it terminates in an uncaught
exception (`TypeError` at line 150 if the retry loop is entered, otherwise
`NameError` at line 185), so the claimed succeeded/failed partition of the
input is never established. -/
theorem generate_pdf_batch_never_yields_ledger :
    ∀ (w : String → Nat → WOutcome) (values : List String) (batchSize maxRetries : Nat),
      ∃ e, generate_pdf_batch w values batchSize maxRetries = Except.error e := by
  intro w values batchSize maxRetries
  by_cases h : (runPass w 0 values ([], [])).2 ≠ [] ∧ 1 ≤ maxRetries
  · exact ⟨PyErr.typeErrorThreadPool, by simp [generate_pdf_batch, h]⟩
  · exact ⟨PyErr.nameErrorPdf, by simp [generate_pdf_batch, h]⟩

/-- C2: concrete runs of `generate_pdf_batch` never return the
`(succeeded_map, failed_list)` pair: with a single item that succeeds (or
with the retry budget 0) control reaches line 185 and raises `NameError` on
the undefined name `pdf`; with a failing item and a positive retry budget it
raises `TypeError` at line 150.  The function body contains no `return`. -/
theorem generate_pdf_batch_raises_not_returns :
    generate_pdf_batch (fun _ _ => WOutcome.ok [1]) ["B"] 20 3 =
        Except.error PyErr.nameErrorPdf ∧
      generate_pdf_batch (fun _ _ => WOutcome.fail) ["B"] 20 0 =
        Except.error PyErr.nameErrorPdf ∧
      generate_pdf_batch (fun _ _ => WOutcome.fail) ["B", "C"] 20 3 =
        Except.error PyErr.typeErrorThreadPool :=
  ⟨rfl, rfl, rfl⟩

/-- C6: the retry-pass pool size `min(1, batch_size // 2)` (line 148) is `0`
for `batch_size = 1` — violating the "never zero when failed items remain"
requirement — and is never larger than `1`, so it is also never "half of the
first pass" for any first-pass concurrency above `2`. -/
theorem retry_batch_size_collapses :
    retry_batch_size 1 = 0 ∧ ∀ b, retry_batch_size b ≤ 1 := by
  refine ⟨rfl, fun b => ?_⟩
  unfold retry_batch_size
  omega

/-- The failed list built by a pass only ever grows: anything already in the
accumulator's failed list is still there after the pass. -/
theorem runPass_failed_grows (w : String → Nat → WOutcome) (p : Nat) :
    ∀ (items : List String) (acc : List (String × List Nat) × List String) (x : String),
      x ∈ acc.2 → x ∈ (runPass w p items acc).2 := by
  intro items
  induction items with
  | nil => intro acc x h; exact h
  | cons v rest ih =>
    intro acc x h
    cases hw : w v p with
    | ok b => simpa only [runPass, hw] using ih (acc.1 ++ [(v, b)], acc.2) x h
    | fail =>
      simpa only [runPass, hw] using
        ih (acc.1, acc.2 ++ [v]) x (List.mem_append_left _ h)
    | exc =>
      simpa only [runPass, hw] using
        ih (acc.1, acc.2 ++ [v]) x (List.mem_append_left _ h)

/-- C4: failure semantics of the export worker and the batch layer.
(1) `export_report_to_pdf` yields an artifact only when the body completed
through the single success path; every failing or raising body yields the
sentinel `None`.  (2) In particular an exception in the submission call
itself yields the sentinel with zero polls.  (3) The batch collection loop
(lines 121-133) turns a worker exception into membership in the failed list,
so one item's failure never aborts the pass. -/
theorem export_failures_return_sentinel :
    (∀ (env : ExportEnv) (m : Nat) (b : List Nat),
        (export_report_to_pdf env m).1 = some b → (exportCore env m).1 = ExpResult.ok b) ∧
      (∀ (env : ExportEnv) (m : Nat),
        env.submit = none → export_report_to_pdf env m = (none, 0)) ∧
      (∀ (w : String → Nat → WOutcome) (p : Nat) (items : List String)
          (acc : List (String × List Nat) × List String) (v : String),
        v ∈ items → w v p = WOutcome.exc → v ∈ (runPass w p items acc).2) := by
  refine ⟨?_, ?_, ?_⟩
  · intro env m b h
    rcases hc : (exportCore env m).1 with bs | _ | _
    · simp only [export_report_to_pdf, hc, Option.some.injEq] at h
      rw [h]
    · simp [export_report_to_pdf, hc] at h
    · simp [export_report_to_pdf, hc] at h
  · intro env m h
    simp [export_report_to_pdf, exportCore, h]
  · intro w p items
    induction items with
    | nil => intro acc v hv; cases hv
    | cons a rest ih =>
      intro acc v hv hexc
      rcases List.mem_cons.mp hv with rfl | hmem
      · simp only [runPass, hexc]
        exact runPass_failed_grows w p rest _ v (List.mem_append_right _ (by simp))
      · cases hw : w a p <;> simp only [runPass, hw] <;> exact ih _ v hmem hexc

/-- Submission raising, plus one raising worker in a batch pass. -/
def envSubmitRaise : ExportEnv :=
  { submit := none, poll := fun _ => none, fetch := none }

/-- Witness for C4 at concrete inputs: a raising submission yields the
sentinel with zero polls, and a raising worker lands in the failed list. -/
theorem export_failures_return_sentinel_witness :
    export_report_to_pdf envSubmitRaise 30 = (none, 0) ∧
      "A" ∈ (runPass (fun _ _ => WOutcome.exc) 0 ["A"] ([], [])).2 :=
  ⟨export_failures_return_sentinel.2.1 envSubmitRaise 30 rfl,
    export_failures_return_sentinel.2.2 (fun _ _ => WOutcome.exc) 0 ["A"] ([], []) "A"
      (by simp) rfl⟩

/-- Poll statuses `"Running", "Running", "Succeeded"`, artifact `[7]`. -/
def envRRS : ExportEnv :=
  { submit := some { code := 200, id := some "e1" }
    poll := fun k =>
      if k < 2 then some { code := 200, status := some "Running" }
      else some { code := 200, status := some "Succeeded" }
    fetch := some (200, [7]) }

/-- C5: the claimed 3-poll success is impossible in the function as defined.
Against the status sequence `["Running","Running","Succeeded"]` with poll
cap 30 it returns the sentinel having issued zero poll calls — the
`NameError` on `parameter_value` at line 40 precedes every remote call — and
in particular does not return the claimed `(some artifact, 3 polls)`.  (The
polling loop itself, lines 60-93 = `pollLoop`, does implement the claimed
status mapping, but no invocation of the function as defined reaches it.) -/
theorem rrs_sequence_never_polled :
    export_report_to_pdf_as_defined envRRS 30 = (none, 0) ∧
      export_report_to_pdf_as_defined envRRS 30 ≠ (some [7], 3) :=
  ⟨rfl, by decide⟩

/-- C8: a submission answered with any non-200 status code makes
`export_report_to_pdf` return the sentinel immediately, with zero poll-status
calls issued. -/
theorem non200_submission_fails_without_polls :
    ∀ (env : ExportEnv) (m : Nat) (s : SubmitResp),
      env.submit = some s → s.code ≠ 200 → export_report_to_pdf env m = (none, 0) := by
  intro env m s h1 h2
  simp [export_report_to_pdf, exportCore, h1, h2]

/-- A submission answered with HTTP 500. -/
def envSubmit500 : ExportEnv :=
  { submit := some { code := 500, id := some "e1" }
    poll := fun _ => some { code := 200, status := some "Running" }
    fetch := none }

/-- Witness for C8 at a concrete 500 submission. -/
theorem non200_submission_fails_without_polls_witness :
    export_report_to_pdf envSubmit500 30 = (none, 0) :=
  non200_submission_fails_without_polls envSubmit500 30
    { code := 500, id := some "e1" } rfl (by decide)

/-- C10: a poll response with accepted HTTP status (200 or 202) whose body
has no `"status"` field is treated as `"Running"`: the loop polls again
(incrementing the poll counter) instead of classifying the item as failed. -/
theorem missing_status_treated_as_running :
    ∀ (env : ExportEnv) (f i : Nat) (r : PollResp),
      env.poll i = some r → (r.code = 200 ∨ r.code = 202) → r.status = none →
      pollLoop env (f + 1) i =
        ((pollLoop env f (i + 1)).1, (pollLoop env f (i + 1)).2 + 1) := by
  intro env f i r h1 h2 h3
  simp [pollLoop, h1, h2, h3]

/-- Polls always answer HTTP 200 with a body lacking the `"status"` field. -/
def envNoStatusField : ExportEnv :=
  { submit := some { code := 200, id := some "e1" }
    poll := fun _ => some { code := 200, status := none }
    fetch := none }

/-- Witness for C10: with one unit of budget left, a status-less 200 response
leads to one more poll and then budget exhaustion, not an immediate failure
classification. -/
theorem missing_status_treated_as_running_witness :
    pollLoop envNoStatusField 1 0 = (ExpResult.failed, 1) := by
  rw [missing_status_treated_as_running envNoStatusField 0 0
    { code := 200, status := none } rfl (Or.inl rfl) rfl]
  exact rfl

/-- Under permanent throttling of the file-check call, every level of the
self-call recursion of `generate_single_employee_link` sleeps
`2 ^ retry_count` until the budget check `retry_count < max_retries` fails:
the sleep trace from `retry_count = r` is `[2^r, ..., 2^(n-1)]` and the call
surfaces a terminal failure. -/
theorem genLinkGo_always_throttled (env : LinkEnv) (h : ∀ k, env.fileCode k = 429) :
    ∀ (fuel r n : Nat), n + 1 ≤ r + fuel →
      genLinkGo env n fuel r =
        (false, (List.range' r (n - r)).map (fun i => 2 ^ i)) := by
  intro fuel
  induction fuel with
  | zero =>
    intro r n hf
    have hnr : n - r = 0 := by omega
    simp [genLinkGo, hnr]
  | succ fuel ih =>
    intro r n hf
    by_cases hr : r < n
    · have hrec := ih (r + 1) n (by omega)
      have hd : n - r = (n - (r + 1)) + 1 := by omega
      simp only [genLinkGo, h r, if_pos rfl, hr, if_true, hrec, hd,
        List.range'_succ r (n - (r + 1)) 1, List.map_cons]
    · have hnr : n - r = 0 := by omega
      simp [genLinkGo, h r, hr, hnr]

/-- Under permanent 424 answers, the attempt loop of
`upload_csv_to_sharepoint` starting at `attempt = a` (with `fuel = n - a`
iterations left) sleeps `[2^a, ..., 2^(n-2)]` and returns failure: the final
attempt (`attempt = n - 1`) fails without sleeping. -/
theorem uploadGo_always_throttled (putCode : Nat → Nat) (h : ∀ k, putCode k = 424) :
    ∀ (fuel a n : Nat), a + fuel = n →
      uploadGo putCode n fuel a =
        (false, (List.range' a (n - 1 - a)).map (fun i => 2 ^ i)) := by
  intro fuel
  induction fuel with
  | zero =>
    intro a n hf
    have hna : n - 1 - a = 0 := by omega
    simp [uploadGo, hna]
  | succ fuel ih =>
    intro a n hf
    by_cases ha : a < n - 1
    · have hrec := ih (a + 1) n (by omega)
      have hd : n - 1 - a = (n - 1 - (a + 1)) + 1 := by omega
      simp only [uploadGo, h a, if_pos rfl, ha, if_true, hrec, hd,
        List.range'_succ a (n - 1 - (a + 1)) 1, List.map_cons]
      simp
    · have hna : n - 1 - a = 0 := by omega
      simp [uploadGo, h a, ha, hna]

/-- C7 counterexample: `upload_csv_to_sharepoint` with the configured maximum
attempt count `max_retries = 2`, throttled on every attempt, sleeps only `[1]`
— not the claimed `[2^0, 2^1]`. -/
theorem upload_backoff_counterexample :
    upload_csv_to_sharepoint (fun _ => 424) 2 = (false, [1]) ∧
      ([1] : List Nat) ≠ [2 ^ 0, 2 ^ 1] :=
  ⟨rfl, by decide⟩

/-- C7 (amended): each always-throttled call backs off `2 ^ attempt` between
successive attempts, in increasing order, before surfacing terminal failure,
with one sleep fewer than the number of attempts:
`generate_single_employee_link` with retry budget `n` makes `n + 1` attempts
and sleeps `[2^0, ..., 2^(n-1)]`; `upload_csv_to_sharepoint` with maximum
attempt count `n` makes `n` attempts and sleeps `[2^0, ..., 2^(n-2)]`. -/
theorem backoff_sleep_schedule :
    (∀ (env : LinkEnv) (n : Nat), (∀ k, env.fileCode k = 429) →
        generate_single_employee_link env n =
          (false, (List.range n).map (fun i => 2 ^ i))) ∧
      (∀ (putCode : Nat → Nat) (n : Nat), (∀ k, putCode k = 424) →
        upload_csv_to_sharepoint putCode n =
          (false, (List.range (n - 1)).map (fun i => 2 ^ i))) := by
  constructor
  · intro env n h
    rw [generate_single_employee_link,
      genLinkGo_always_throttled env h (n + 1) 0 n (by omega),
      List.range_eq_range', Nat.sub_zero]
  · intro putCode n h
    rw [upload_csv_to_sharepoint,
      uploadGo_always_throttled putCode h n 0 n (by omega),
      List.range_eq_range', Nat.sub_zero]

/-- Witness for C7 (amended) at concrete budgets: three retries sleep
`[1, 2, 4]`; five attempts sleep `[1, 2, 4, 8]`. -/
theorem backoff_sleep_schedule_witness :
    generate_single_employee_link { fileCode := fun _ => 429, linkCode := fun _ => 200 } 3 =
        (false, [1, 2, 4]) ∧
      upload_csv_to_sharepoint (fun _ => 424) 5 = (false, [1, 2, 4, 8]) := by
  constructor
  · rw [backoff_sleep_schedule.1 { fileCode := fun _ => 429, linkCode := fun _ => 200 } 3
      (fun _ => rfl)]
    decide
  · rw [backoff_sleep_schedule.2 (fun _ => 424) 5 (fun _ => rfl)]
    decide

/-- Occurrence counting through one upload pass: the pass distributes every
occurrence of an identifier into exactly one of the two output lists, on top
of whatever the accumulator already held. -/
theorem uploadPass_count (u : String → UOutcome) :
    ∀ (ids : List String) (acc : List String × List String) (x : String),
      ((uploadPass u ids acc).1.count x) + ((uploadPass u ids acc).2.count x) =
        (acc.1.count x + acc.2.count x) + ids.count x := by
  intro ids
  induction ids with
  | nil => intro acc x; simp [uploadPass]
  | cons v rest ih =>
    intro acc x
    cases hu : u v with
    | ok =>
      rw [show uploadPass u (v :: rest) acc = uploadPass u rest (acc.1 ++ [v], acc.2) by
        simp [uploadPass, hu], ih]
      by_cases hx : x = v <;> simp [hx, List.count_append, List.count_cons] <;> try omega
    | fail =>
      rw [show uploadPass u (v :: rest) acc = uploadPass u rest (acc.1, acc.2 ++ [v]) by
        simp [uploadPass, hu], ih]
      by_cases hx : x = v <;> simp [hx, List.count_append, List.count_cons] <;> try omega
    | exc =>
      rw [show uploadPass u (v :: rest) acc = uploadPass u rest (acc.1, acc.2 ++ [v]) by
        simp [uploadPass, hu], ih]
      by_cases hx : x = v <;> simp [hx, List.count_append, List.count_cons] <;> try omega

/-- C9: for a duplicate-free input (the keys of the Python `pdf_dict`),
`upload_pdfs_batch` puts every input identifier into exactly one of
`(successful, failed)` exactly once, and touches nothing else; the single
fold over the input is the only attempt each item gets — there is no
batch-level retry pass. -/
theorem upload_pdfs_batch_partition :
    ∀ (u : String → UOutcome) (ids : List String), ids.Nodup →
      ∀ x, ((upload_pdfs_batch u ids).1.count x) + ((upload_pdfs_batch u ids).2.count x) =
        if x ∈ ids then 1 else 0 := by
  intro u ids h x
  rw [upload_pdfs_batch, uploadPass_count]
  simpa using List.count_eq_of_nodup h

/-- Witness for C9: two distinct identifiers, one succeeding and one failing
upload; the succeeding one is counted exactly once across the two lists. -/
theorem upload_pdfs_batch_partition_witness :
    ((upload_pdfs_batch (fun s => if s = "a" then UOutcome.ok else UOutcome.fail)
          ["a", "b"]).1.count "a") +
        ((upload_pdfs_batch (fun s => if s = "a" then UOutcome.ok else UOutcome.fail)
          ["a", "b"]).2.count "a") = 1 := by
  rw [upload_pdfs_batch_partition (fun s => if s = "a" then UOutcome.ok else UOutcome.fail)
    ["a", "b"] (by decide) "a"]
  decide
